import Mathlib

/-!
Verification of the libjt808 frame parser (parser.cc, parser.h,
protocol_parameter.h, location_report.h) in a shallow embedding.

Bytes are `Nat` values (the C++ buffers are `std::vector<uint8_t>`); byte
buffers are `List Nat`; C++ strings of decimal digits (BCD decodings) are
modelled as lists of digit values.  Stateful C++ code that mutates
`ProtocolParameter*` is modelled by explicit state passing: a handler takes
the parameter record and returns the status `Int` together with the updated
record, with early `return -1` paths carrying the partial writes made before
the return, exactly as the in-place C++ mutations would.

`util.h` and `bcd.h` are not part of the provided sources; the functions
taken from them (`ReverseEscape`, `BccCheckSum`, `BcdToString`,
`BcdToStringFillZero`, and the `memcpy`+`EndianSwap` big-endian reads) are
modelled from the specification and are marked as such in their doc comments.
-/

/-- The `union MsgBodyAttribute` of protocol_parameter.h, kept as its 16-bit
value `u16val`; the bit fields are recovered by the accessors below
(`msglen` bits 0-9, `encrypt` bits 10-12, `packet` bit 13, `retain`
bits 14-15). -/
structure MsgBodyAttribute where
  u16val : Nat
deriving DecidableEq

/-- Bit field `msglen : 10` of `MsgBodyAttribute`. -/
def MsgBodyAttribute.msglen (a : MsgBodyAttribute) : Nat := a.u16val % 1024

/-- Bit field `encrypt : 3` of `MsgBodyAttribute`. -/
def MsgBodyAttribute.encrypt (a : MsgBodyAttribute) : Nat := a.u16val / 1024 % 8

/-- Bit field `packet : 1` of `MsgBodyAttribute`. -/
def MsgBodyAttribute.packet (a : MsgBodyAttribute) : Nat := a.u16val / 8192 % 2

/-- Bit field `retain : 2` of `MsgBodyAttribute`. -/
def MsgBodyAttribute.retainBits (a : MsgBodyAttribute) : Nat := a.u16val / 16384 % 4

/-- The `struct MsgHead` of protocol_parameter.h.  `phone_num` is a
`std::string` of decimal digits, modelled as the list of digit values. -/
structure MsgHead where
  msg_id : Nat
  msgbody_attr : MsgBodyAttribute
  phone_num : List Nat
  msg_flow_num : Nat
  total_packet : Nat
  packet_seq : Nat
deriving DecidableEq

/-- The `struct RegisterInfo` of protocol_parameter.h. -/
structure RegisterInfo where
  province_id : Nat
  city_id : Nat
  manufacturer_id : List Nat
  terminal_model : List Nat
  terminal_id : List Nat
  car_plate_color : Nat
  car_plate_num : List Nat
deriving DecidableEq

/-- The `struct UpgradeInfo` of protocol_parameter.h. -/
structure UpgradeInfo where
  upgrade_type : Nat
  upgrade_result : Nat
  manufacturer_id : List Nat
  version_id : List Nat
  upgrade_data_total_len : Nat
  upgrade_data : List Nat
deriving DecidableEq

/-- The `struct FillPacket` of protocol_parameter.h; `packet_id` is a
`std::vector<uint16_t>`. -/
structure FillPacket where
  first_packet_msg_flow_num : Nat
  packet_id : List Nat
deriving DecidableEq

/-- The `struct LocationBasicInformation` of location_report.h.  The
`AlarmBit` and `StatusBit` unions are kept as their 32-bit `value`
members (the only members the parser writes); `time` is the decoded BCD
digit string. -/
structure LocationBasicInformation where
  alarm : Nat
  status : Nat
  latitude : Nat
  longitude : Nat
  altitude : Nat
  speed : Nat
  bearing : Nat
  time : List Nat
deriving DecidableEq

/-- The `using LocationExtensions = std::map<uint8_t, std::vector<uint8_t>>`,
modelled as an association list. -/
abbrev LocationExtensions : Type := List (Nat × List Nat)

/-- The `struct LocationTrackingControl` of location_report.h. -/
structure LocationTrackingControl where
  interval : Nat
  tracking_time : Nat
deriving DecidableEq

/-- Modelled from the spec: the polygon-area attribute word from
area_route.h, which is absent from the sources.  Kept as its 16-bit
`value`; per the specification ("attribute: u16 bitset", time fields
gated by bit `by_time`, speed fields by bit `speed_limit`) and the JT/T
808 area-attribute layout, `by_time` is bit 0 and `speed_limit` is
bit 1. -/
structure AreaAttribute where
  value : Nat
deriving DecidableEq

/-- Bit `by_time` (bit 0) of the area attribute word. -/
def AreaAttribute.by_time (a : AreaAttribute) : Nat := a.value % 2

/-- Bit `speed_limit` (bit 1) of the area attribute word. -/
def AreaAttribute.speed_limit (a : AreaAttribute) : Nat := a.value / 2 % 2

/-- Modelled from the spec: `LocationPoint` from area_route.h (absent from
the sources).  The source stores `EndianSwap32(...) * 1e-6` into a
`double`; the claims never touch the scaled value, so the raw
micro-degree integers read from the wire are kept instead of modelling
floating point. -/
structure LocationPoint where
  latitude : Nat
  longitude : Nat
deriving DecidableEq

/-- Modelled from the spec: `PolygonArea` from area_route.h (absent from
the sources); field names follow their uses in parser.cc
(`area_id`, `area_attribute`, `start_time`, `stop_time`, `max_speed`,
`overspeed_time`, `vertices`). -/
structure PolygonArea where
  area_id : Nat
  area_attribute : AreaAttribute
  start_time : List Nat
  stop_time : List Nat
  max_speed : Nat
  overspeed_time : Nat
  vertices : List LocationPoint
deriving DecidableEq

/-- Modelled from the spec: `TerminalParameters` from terminal_parameter.h
(absent from the sources): "a mapping from `parameter_id: u32` to
`value: bytes`", i.e. `std::map<uint32_t, std::vector<uint8_t>>`,
modelled as an association list. -/
abbrev TerminalParameters : Type := List (Nat × List Nat)

/-- Modelled from the spec: `MultiMediaDataUpload` from
multimedia_upload.h (absent from the sources); field names follow their
uses in parser.cc. -/
structure MultiMediaDataUpload where
  media_id : Nat
  media_type : Nat
  media_format : Nat
  media_event : Nat
  channel_id : Nat
  loaction_report_body : List Nat
  media_data : List Nat
deriving DecidableEq

/-- Modelled from the spec: `MultiMediaDataUploadResponse` from
multimedia_upload.h (absent from the sources); `reload_packet_ids` is a
sequence of u16. -/
structure MultiMediaDataUploadResponse where
  media_id : Nat
  reload_packet_ids : List Nat
deriving DecidableEq

/-- The `struct VersionInformation` of protocol_parameter.h (strings as byte
lists). -/
structure VersionInformation where
  version : List Nat
  rel_date : List Nat
  cpu_id : List Nat
  model : List Nat
  imei : List Nat
  imsi : List Nat
  iccid : List Nat
  car_model : Nat
  vin : List Nat
  tot_mileage : Nat
  tot_fuel : Nat
deriving DecidableEq

/-- The `struct CardInfo` of protocol_parameter.h. -/
structure CardInfo where
  name : List Nat
  country : List Nat
  citizen_id : List Nat
  expire_date : List Nat
  dob : List Nat
  license_type : List Nat
  gender : List Nat
  license_id : List Nat
  issuing_branch : List Nat
  track : List Nat
deriving DecidableEq

/-- The `struct DrivingLicenseData` of protocol_parameter.h. -/
structure DrivingLicenseData where
  card_info : CardInfo
  login_sts : Nat
  dlt_allow_flg : Nat
deriving DecidableEq

/-- The `struct CANInfo` of protocol_parameter.h. -/
structure CANInfo where
  id : Nat
  data : List Nat
deriving DecidableEq

/-- The `struct CANBroadcastData` of protocol_parameter.h. -/
structure CANBroadcastData where
  nbr_of_data : Nat
  recv_time : List Nat
  can_info : CANInfo
deriving DecidableEq

/-- The anonymous `parse` sub-struct of `ProtocolParameter`
(protocol_parameter.h): the view populated by the decoder. -/
structure ParseView where
  respone_result : Nat
  respone_msg_id : Nat
  respone_flow_num : Nat
  msg_head : MsgHead
  register_info : RegisterInfo
  authentication_code : List Nat
  terminal_parameters : TerminalParameters
  terminal_parameter_ids : List Nat
  location_info : LocationBasicInformation
  location_extension : LocationExtensions
  location_tracking_control : LocationTrackingControl
  polygon_area : PolygonArea
  polygon_area_id : List Nat
  upgrade_info : UpgradeInfo
  fill_packet : FillPacket
  multimedia_upload : MultiMediaDataUpload
  multimedia_upload_response : MultiMediaDataUploadResponse
  retainData : List Nat
  version_info : VersionInformation
  license_data : DrivingLicenseData
  can_data : CANBroadcastData
deriving DecidableEq

/-- The `struct ProtocolParameter` of protocol_parameter.h: the send-view
fields followed by the `parse` sub-view.  (The C++ member `retain` is
called `retainData` here because of Lean naming constraints.) -/
structure ProtocolParameter where
  respone_result : Nat
  respone_msg_id : Nat
  respone_flow_num : Nat
  msg_head : MsgHead
  register_info : RegisterInfo
  authentication_code : List Nat
  terminal_parameters : TerminalParameters
  terminal_parameter_ids : List Nat
  location_info : LocationBasicInformation
  location_extension : LocationExtensions
  location_tracking_control : LocationTrackingControl
  polygon_area : PolygonArea
  polygon_area_id : List Nat
  upgrade_info : UpgradeInfo
  fill_packet : FillPacket
  multimedia_upload : MultiMediaDataUpload
  multimedia_upload_response : MultiMediaDataUploadResponse
  retainData : List Nat
  version_info : VersionInformation
  license_data : DrivingLicenseData
  can_data : CANBroadcastData
  parse : ParseView
deriving DecidableEq

/-! ## Byte utilities (util.h / bcd.h, modelled from the spec) -/

/-- Modelled from the spec: the composite of `memcpy` into `U16ToU8Array`
followed by `EndianSwap16` (util.h, absent from the sources), and equally
the explicit `in[pos] * 256 + in[pos + 1]` arithmetic of parser.cc: the
big-endian 16-bit read at offset `pos`. -/
def readU16be (inb : List Nat) (pos : Nat) : Nat :=
  inb.getD pos 0 * 256 + inb.getD (pos + 1) 0

/-- Modelled from the spec: the composite of `memcpy` into `U32ToU8Array`
followed by `EndianSwap32` (util.h, absent from the sources): the
big-endian 32-bit read at offset `pos`. -/
def readU32be (inb : List Nat) (pos : Nat) : Nat :=
  inb.getD pos 0 * 16777216 + inb.getD (pos + 1) 0 * 65536 +
    inb.getD (pos + 2) 0 * 256 + inb.getD (pos + 3) 0

/-- Modelled from the spec: `BccCheckSum` of util.h (absent from the
sources), "the single-byte XOR of all bytes" of its argument range. -/
def BccCheckSum (l : List Nat) : Nat :=
  l.foldl Nat.xor 0

/-- Modelled from the spec: `BcdToString` of bcd.h (absent from the
sources).  Each BCD byte carries two decimal digits (high nibble first);
decoding fails on a nibble above 9 ("BCD phone malformed" is a
`HeaderParseError` cause per the spec), and the plain variant drops
leading zero digits (the zero-fill variant below preserves them).
The output `std::string` of digits is modelled as the digit list. -/
def BcdToString (bcd : List Nat) : Option (List Nat) :=
  let nibbles := bcd.flatMap (fun b => [b % 256 / 16, b % 16])
  if nibbles.all (fun d => d < 10) then some (nibbles.dropWhile (fun d => d == 0))
  else none

/-- Modelled from the spec: `BcdToStringFillZero` of bcd.h (absent from
the sources), the zero-fill BCD decode used for timestamps: "decode
produces exactly 2N digits, preserving leading zeros". -/
def BcdToStringFillZero (bcd : List Nat) : List Nat :=
  bcd.flatMap (fun b => [b % 256 / 16, b % 16])

/-- Modelled from the spec: the unescape pass over the frame interior
(util.h, absent from the sources): `0x7D 0x02 → 0x7E`, `0x7D 0x01 → 0x7D`;
"any other byte following `0x7D`, or an unterminated escape at end of
payload, is a framing error". -/
def UnescapeBytes : List Nat → Option (List Nat)
  | [] => some []
  | 0x7D :: 0x02 :: r => (UnescapeBytes r).map (fun l => 0x7E :: l)
  | 0x7D :: 0x01 :: r => (UnescapeBytes r).map (fun l => 0x7D :: l)
  | 0x7D :: _ => none
  | b :: r => (UnescapeBytes r).map (fun l => b :: l)

/-- Modelled from the spec: `ReverseEscape` of util.h (absent from the
sources).  Per the spec's framing decode it requires the first and the
last byte to be `0x7E` and unescapes the interior; the output keeps the
two flag bytes (parser.cc indexes the result with the header at
offset 1 and compares the checksum at `out.size() - 2`). -/
def ReverseEscape (inb : List Nat) : Option (List Nat) :=
  if 2 ≤ inb.length ∧ inb.head? = some 0x7E ∧ inb.getLast? = some 0x7E then
    (UnescapeBytes ((inb.drop 1).dropLast)).map (fun m => 0x7E :: (m ++ [0x7E]))
  else none

/-! ## Header decoder (parser.cc, anonymous namespace) -/

/-- The `JT808FrameHeadParse` of parser.cc.  The C++ takes `MsgHead*` as an
in-out parameter; here the input record is threaded and the status `int`
is returned with the (possibly partially) updated record, so an early
`return -1` after some fields were written keeps those writes, exactly
like the C++. -/
def JT808FrameHeadParse (inb : List Nat) (mh : MsgHead) : Int × MsgHead :=
  if inb.length < 15 then (-1, mh)
  else
    let mh := { mh with msg_id := inb.getD 1 0 * 256 + inb.getD 2 0 }
    let mh := { mh with msgbody_attr := ⟨inb.getD 3 0 * 256 + inb.getD 4 0⟩ }
    match BcdToString ((inb.drop 5).take 6) with
    | none => (-1, mh)
    | some s =>
      let mh := { mh with phone_num := s }
      let mh := { mh with msg_flow_num := inb.getD 11 0 * 256 + inb.getD 12 0 }
      if mh.msgbody_attr.packet = 1 ∧ inb.length - 15 - mh.msgbody_attr.msglen = 4 then
        (0, { mh with
                total_packet := inb.getD 13 0 * 256 + inb.getD 14 0,
                packet_seq := inb.getD 15 0 * 256 + inb.getD 16 0 })
      else
        (0, { mh with total_packet := 0, packet_seq := 0 })

/-! ## Map primitives for the std::map-backed containers -/

/-- The `std::map::insert` on an association list: inserting a key that is
already present leaves the map unchanged (C++ `insert` does not
overwrite). -/
def mapInsert (m : List (Nat × List Nat)) (k : Nat) (v : List Nat) :
    List (Nat × List Nat) :=
  if m.any (fun kv => kv.1 == k) then m else m ++ [(k, v)]

/-- The `std::map::operator[] = value` on an association list: overwrite the
entry if the key is present, insert it otherwise. -/
def mapAssign (m : List (Nat × List Nat)) (k : Nat) (v : List Nat) :
    List (Nat × List Nat) :=
  if m.any (fun kv => kv.1 == k) then
    m.map (fun kv => if kv.1 == k then (k, v) else kv)
  else m ++ [(k, v)]

/-! ## Message body handlers (lambdas registered by `JT808FrameParserInit`
in parser.cc).  Each C++ lambda guards `para == nullptr`; that guard is
modelled once in `JT808FrameParse` (the `Option` argument), and the
handlers here are the non-null path.  `MSGBODY_NOPACKET_POS = 13`,
`MSGBODY_PACKET_POS = 17` (protocol_parameter.h). -/
/-- Handler for 0x0001, terminal general response.  The packet-position
check is commented out in the source, so `pos` is always 13. -/
def handler0x0001 (inb : List Nat) (para : ProtocolParameter) :
    Int × ProtocolParameter :=
  let pos := 13
  (0, { para with parse := { para.parse with
    respone_flow_num := inb.getD pos 0 * 256 + inb.getD (pos + 1) 0
    respone_msg_id := inb.getD (pos + 2) 0 * 256 + inb.getD (pos + 3) 0
    respone_result := inb.getD (pos + 4) 0 } })

/-- Handler for 0x8001, platform general response (same body layout as
0x0001, `pos` fixed at 13). -/
def handler0x8001 (inb : List Nat) (para : ProtocolParameter) :
    Int × ProtocolParameter :=
  let pos := 13
  (0, { para with parse := { para.parse with
    respone_flow_num := inb.getD pos 0 * 256 + inb.getD (pos + 1) 0
    respone_msg_id := inb.getD (pos + 2) 0 * 256 + inb.getD (pos + 3) 0
    respone_result := inb.getD (pos + 4) 0 } })

/-- Handler for 0x0002, terminal heartbeat: empty message body. -/
def handler0x0002 (_inb : List Nat) (para : ProtocolParameter) :
    Int × ProtocolParameter :=
  (0, para)

/-- Handler for 0x8003, fill packet request.  The length guard
`msg_len - 3 != cnt * 2` is C++ `int` arithmetic, hence the `Int` cast.
Note the source assembles each retransmission packet ID as
`in[pos + i * 2] + in[pos + 1 + i * 2]` - a plain byte sum, not a
big-endian 16-bit combination.  The local `fp` mirrors the C++ reference
`auto& fill_packet = para->parse.fill_packet`. -/
def handler0x8003 (inb : List Nat) (para : ProtocolParameter) :
    Int × ProtocolParameter :=
  let msg_len := para.parse.msg_head.msgbody_attr.msglen
  let pos := if para.parse.msg_head.msgbody_attr.packet = 1 then 17 else 13
  let fp := { para.parse.fill_packet with
    first_packet_msg_flow_num := inb.getD pos 0 * 256 + inb.getD (pos + 1) 0 }
  let pos := pos + 2
  let cnt := inb.getD pos 0
  let pos := pos + 1
  if (msg_len : Int) - 3 ≠ (cnt : Int) * 2 then
    (-1, { para with parse := { para.parse with fill_packet := fp } })
  else
    let fp := { fp with
      packet_id := (List.range cnt).map
        (fun i => inb.getD (pos + i * 2) 0 + inb.getD (pos + 1 + i * 2) 0) }
    (0, { para with parse := { para.parse with fill_packet := fp } })

/-- Handler for 0x0100, terminal registration (`pos` fixed at 13; no
packet check in the source).  `terminal_model` and `terminal_id` are
`push_back`-ed without a preceding `clear()`, so the decoded bytes are
appended to the fields' previous contents; the per-byte loops stop at
the first `0x00`.  The local `ri` mirrors the C++ reference
`auto& register_info = para->parse.register_info`. -/
def handler0x0100 (inb : List Nat) (para : ProtocolParameter) :
    Int × ProtocolParameter :=
  let pos := 13
  let ri := para.parse.register_info
  let ri := { ri with province_id := inb.getD pos 0 * 256 + inb.getD (pos + 1) 0 }
  let pos := pos + 2
  let ri := { ri with city_id := inb.getD pos 0 * 256 + inb.getD (pos + 1) 0 }
  let pos := pos + 2
  let ri := { ri with manufacturer_id := (inb.drop pos).take 5 }
  let pos := pos + 5
  let ri := { ri with terminal_model :=
    ri.terminal_model ++ ((inb.drop pos).take 20).takeWhile (fun b => b != 0) }
  let pos := pos + 20
  let ri := { ri with terminal_id :=
    ri.terminal_id ++ ((inb.drop pos).take 7).takeWhile (fun b => b != 0) }
  let pos := pos + 7
  let ri := { ri with car_plate_color := inb.getD pos 0 }
  let pos := pos + 1
  let ri :=
    if ri.car_plate_color ≠ 0 then
      let len := para.parse.msg_head.msgbody_attr.msglen - 37
      { ri with car_plate_num := (inb.drop pos).take len }
    else ri
  (0, { para with parse := { para.parse with register_info := ri } })

/-- Handler for 0x8100, terminal registration response (`pos` fixed at
13).  The authentication code is assigned only when the response result
byte is 0. -/
def handler0x8100 (inb : List Nat) (para : ProtocolParameter) :
    Int × ProtocolParameter :=
  let pos := 13
  let flow := inb.getD pos 0 * 256 + inb.getD (pos + 1) 0
  let result := inb.getD (pos + 2) 0
  if result = 0 then
    (0, { para with parse := { para.parse with
      respone_flow_num := flow
      respone_result := result
      authentication_code := (inb.drop (pos + 3)).take
        (para.parse.msg_head.msgbody_attr.msglen - 3) } })
  else
    (0, { para with parse := { para.parse with
      respone_flow_num := flow
      respone_result := result } })

/-- Handler for 0x0003, terminal logout: empty message body. -/
def handler0x0003 (_inb : List Nat) (para : ProtocolParameter) :
    Int × ProtocolParameter :=
  (0, para)

/-- Handler for 0x0102, terminal authentication: the body is the
authentication code. -/
def handler0x0102 (inb : List Nat) (para : ProtocolParameter) :
    Int × ProtocolParameter :=
  let pos := if para.parse.msg_head.msgbody_attr.packet = 1 then 17 else 13
  (0, { para with parse := { para.parse with
    authentication_code := (inb.drop pos).take
      para.parse.msg_head.msgbody_attr.msglen } })

/-- The 0x8103/0x0104 parameter-item loop of parser.cc: `cnt` iterations,
each reading a 4-byte big-endian parameter ID, a length byte and that
many value bytes, `std::map::insert`-ing each pair. -/
def parseParamItems (inb : List Nat) : Nat → Nat → TerminalParameters →
    TerminalParameters
  | 0, _, paras => paras
  | n + 1, pos, paras =>
    let id := readU32be inb pos
    let pos := pos + 4
    let value := (inb.drop (pos + 1)).take (inb.getD pos 0)
    parseParamItems inb n (pos + 1 + inb.getD pos 0) (mapInsert paras id value)

/-- Handler for 0x8103, set terminal parameters: the item map is cleared
and refilled from the body. -/
def handler0x8103 (inb : List Nat) (para : ProtocolParameter) :
    Int × ProtocolParameter :=
  let pos := if para.parse.msg_head.msgbody_attr.packet = 1 then 17 else 13
  let msg_len := para.parse.msg_head.msgbody_attr.msglen
  if msg_len < 1 then (-1, para)
  else
    let cnt := inb.getD pos 0
    let pos := pos + 1
    (0, { para with parse := { para.parse with
      terminal_parameters := parseParamItems inb cnt pos [] } })

/-- Handler for 0x8104, query all terminal parameters: clears the parsed
ID list, empty body. -/
def handler0x8104 (_inb : List Nat) (para : ProtocolParameter) :
    Int × ProtocolParameter :=
  (0, { para with parse := { para.parse with terminal_parameter_ids := [] } })

/-- Handler for 0x8106, query specific terminal parameters. -/
def handler0x8106 (inb : List Nat) (para : ProtocolParameter) :
    Int × ProtocolParameter :=
  let pos := if para.parse.msg_head.msgbody_attr.packet = 1 then 17 else 13
  let msg_len := para.parse.msg_head.msgbody_attr.msglen
  if msg_len < 1 then (-1, para)
  else
    let cnt := inb.getD pos 0
    let pos := pos + 1
    if msg_len ≠ cnt * 4 + 1 then (-1, para)
    else
      (0, { para with parse := { para.parse with
        terminal_parameter_ids :=
          (List.range cnt).map (fun i => readU32be inb (pos + 4 * i)) } })

/-- Handler for 0x0104, query terminal parameters response: a response
flow number followed by the same item list as 0x8103. -/
def handler0x0104 (inb : List Nat) (para : ProtocolParameter) :
    Int × ProtocolParameter :=
  let pos := if para.parse.msg_head.msgbody_attr.packet = 1 then 17 else 13
  let msg_len := para.parse.msg_head.msgbody_attr.msglen
  if msg_len < 3 then (-1, para)
  else
    let flow := readU16be inb pos
    let pos := pos + 2
    let cnt := inb.getD pos 0
    let pos := pos + 1
    (0, { para with parse := { para.parse with
      respone_flow_num := flow
      terminal_parameters := parseParamItems inb cnt pos [] } })

/-- Handler for 0x8108, issue terminal upgrade package.  `content_len` is
a C++ `uint16_t` computed from `int` arithmetic, hence the mod-65536
reduction of the signed difference.  The local `ui` mirrors the C++
reference `auto& upgrade_info = para->parse.upgrade_info`. -/
def handler0x8108 (inb : List Nat) (para : ProtocolParameter) :
    Int × ProtocolParameter :=
  let msg_len := para.parse.msg_head.msgbody_attr.msglen
  let pos : Nat := if para.parse.msg_head.msgbody_attr.packet = 1 then 17 else 13
  let beg : Nat := pos
  let ui := para.parse.upgrade_info
  let ui := { ui with upgrade_type := inb.getD pos 0 }
  let pos := pos + 1
  let ui := { ui with manufacturer_id := (inb.drop pos).take 5 }
  let pos := pos + 5
  let ui := { ui with version_id := (inb.drop (pos + 1)).take (inb.getD pos 0) }
  let pos := pos + inb.getD pos 0 + 1
  let ui := { ui with upgrade_data_total_len :=
    (inb.getD pos 0 * 65536 * 256 + inb.getD (pos + 1) 0 * 65536 +
      inb.getD (pos + 2) 0 * 256 + inb.getD (pos + 3) 0) }
  let pos := pos + 4
  let content_len := (((msg_len : Int) - ((pos : Int) - (beg : Int))).emod 65536).toNat
  if content_len + 9 + ui.version_id.length > msg_len then
    (-1, { para with parse := { para.parse with upgrade_info := ui } })
  else
    let ui := { ui with upgrade_data := (inb.drop pos).take content_len }
    (0, { para with parse := { para.parse with upgrade_info := ui } })

/-- Handler for 0x0108, terminal upgrade result notification. -/
def handler0x0108 (inb : List Nat) (para : ProtocolParameter) :
    Int × ProtocolParameter :=
  let pos := if para.parse.msg_head.msgbody_attr.packet = 1 then 17 else 13
  (0, { para with parse := { para.parse with
    upgrade_info := { para.parse.upgrade_info with
      upgrade_type := inb.getD pos 0
      upgrade_result := inb.getD (pos + 1) 0 } } })

/-- The location-extension item loop shared by the 0x0200 and 0x0201
handlers.  `endp` is the C++ `uint8_t end`; the `while (pos <= end - 2)`
condition is `int` arithmetic, equivalent to `pos + 2 ≤ endp` over
naturals.  Returns the success flag and the final map state, so a
mid-loop `return -1` keeps the items stored before it, as in the C++.
The extra fuel argument only makes the recursion structural (and hence
kernel-computable); callers pass `endp`, which the loop can never
exhaust: each iteration consumes one fuel but advances `pos` by at
least 2, and the loop continues only while `pos + 2 ≤ endp`. -/
def parseLocationExtItems (inb : List Nat) (endp : Nat) :
    Nat → Nat → LocationExtensions → Bool × LocationExtensions
  | 0, _, ext => (true, ext)
  | fuel + 1, pos, ext =>
    if pos + 2 ≤ endp then
      if pos + 1 + inb.getD (pos + 1) 0 > endp then (false, ext)
      else
        parseLocationExtItems inb endp fuel (pos + 2 + inb.getD (pos + 1) 0)
          (mapAssign ext (inb.getD pos 0) ((inb.drop (pos + 2)).take (inb.getD (pos + 1) 0)))
    else (true, ext)

/-- The fixed 28-byte basic location block decoded identically by the
0x0200 and 0x0201 handlers at body offset `pos` (each line is one
`memcpy`+`EndianSwap` read of the source, then the BCD time). -/
def decodeLocationBasic (inb : List Nat) (pos : Nat)
    (bi : LocationBasicInformation) : LocationBasicInformation :=
  { bi with
    alarm := readU32be inb pos
    status := readU32be inb (pos + 4)
    latitude := readU32be inb (pos + 8)
    longitude := readU32be inb (pos + 12)
    altitude := readU16be inb (pos + 16)
    speed := readU16be inb (pos + 18)
    bearing := readU16be inb (pos + 20)
    time := BcdToStringFillZero ((inb.drop (pos + 22)).take 6) }

/-- Handler for 0x0200, location information report.  The extension-loop
bound `uint8_t end = msg_len + pos` truncates to eight bits. -/
def handler0x0200 (inb : List Nat) (para : ProtocolParameter) :
    Int × ProtocolParameter :=
  let msg_len := para.parse.msg_head.msgbody_attr.msglen
  if msg_len < 28 then (-1, para)
  else
    let pos := if para.parse.msg_head.msgbody_attr.packet = 1 then 17 else 13
    let bi := decodeLocationBasic inb pos para.parse.location_info
    if msg_len > 28 then
      let endp := (msg_len + pos) % 256
      let pos := pos + 28
      let r := parseLocationExtItems inb endp endp pos para.parse.location_extension
      ((if r.1 then 0 else -1 : Int),
        { para with parse := { para.parse with
            location_info := bi, location_extension := r.2 } })
    else (0, { para with parse := { para.parse with location_info := bi } })

/-- Handler for 0x8201, location information query: empty body. -/
def handler0x8201 (_inb : List Nat) (para : ProtocolParameter) :
    Int × ProtocolParameter :=
  (0, para)

/-- Handler for 0x0201, location information query response.  Note the
source computes the response flow number as `in[pos] * 256 + in[pos]` -
the same byte twice - and reuses the 0x0200 extension-loop bound
`end = msg_len + pos` even though `pos` has already advanced past the
two flow-number bytes. -/
def handler0x0201 (inb : List Nat) (para : ProtocolParameter) :
    Int × ProtocolParameter :=
  let msg_len := para.parse.msg_head.msgbody_attr.msglen
  if msg_len < 30 then (-1, para)
  else
    let pos := if para.parse.msg_head.msgbody_attr.packet = 1 then 17 else 13
    let flow := inb.getD pos 0 * 256 + inb.getD pos 0
    let pos := pos + 2
    let bi := decodeLocationBasic inb pos para.parse.location_info
    if msg_len > 28 then
      let endp := (msg_len + pos) % 256
      let pos := pos + 28
      let r := parseLocationExtItems inb endp endp pos para.parse.location_extension
      ((if r.1 then 0 else -1 : Int),
        { para with parse := { para.parse with
            respone_flow_num := flow, location_info := bi,
            location_extension := r.2 } })
    else
      (0, { para with parse := { para.parse with
        respone_flow_num := flow, location_info := bi } })

/-- Handler for 0x8202, temporary location tracking control. -/
def handler0x8202 (inb : List Nat) (para : ProtocolParameter) :
    Int × ProtocolParameter :=
  let msg_len := para.parse.msg_head.msgbody_attr.msglen
  if msg_len ≠ 6 then (-1, para)
  else
    let pos := if para.parse.msg_head.msgbody_attr.packet = 1 then 17 else 13
    (0, { para with parse := { para.parse with
      location_tracking_control := {
        interval := inb.getD pos 0 * 256 + inb.getD (pos + 1) 0
        tracking_time := readU32be inb (pos + 2) } } })

/-- The 0x8604 vertex loop: `while (pos < end)` reading two big-endian
32-bit micro-degree values per step.  As in `parseLocationExtItems`, the
fuel argument (callers pass `endp`) only makes the recursion structural
and is never exhausted, since each iteration advances `pos` by 8. -/
def parsePolygonVertices (inb : List Nat) (endp : Nat) :
    Nat → Nat → List LocationPoint → List LocationPoint
  | 0, _, acc => acc
  | fuel + 1, pos, acc =>
    if pos < endp then
      parsePolygonVertices inb endp fuel (pos + 8)
        (acc ++ [⟨readU32be inb pos, readU32be inb (pos + 4)⟩])
    else acc

/-- Handler for 0x8604, set polygon area.  The local `pa` mirrors the C++
reference `auto& polygon_area = para->parse.polygon_area`.  Note both
BCD time fields are assigned from the source's empty iterator range
`(in.begin() + pos, in.begin() + pos)` - zero bytes - before `pos` is
advanced by 6; hence the `take 0`.  The final length guard
`end - pos != cnt * 8` is C++ `int` arithmetic, hence the `Int` cast. -/
def handler0x8604 (inb : List Nat) (para : ProtocolParameter) :
    Int × ProtocolParameter :=
  let msg_len := para.parse.msg_head.msgbody_attr.msglen
  if msg_len < 28 then (-1, para)
  else
    let pos : Nat := if para.parse.msg_head.msgbody_attr.packet = 1 then 17 else 13
    let endp := pos + msg_len
    let pa := para.parse.polygon_area
    let pa := { pa with area_id := readU32be inb pos }
    let pos := pos + 4
    let pa := { pa with area_attribute := ⟨readU16be inb pos⟩ }
    let pos := pos + 2
    let st := pa.area_attribute.by_time = 1
    let pa :=
      if st then
        { pa with
          start_time := BcdToStringFillZero ((inb.drop pos).take 0)
          stop_time := BcdToStringFillZero ((inb.drop (pos + 6)).take 0) }
      else pa
    let pos := if st then pos + 12 else pos
    let sl := pa.area_attribute.speed_limit = 1
    let pa :=
      if sl then
        { pa with
          max_speed := readU16be inb pos
          overspeed_time := inb.getD (pos + 2) 0 }
      else pa
    let pos := if sl then pos + 3 else pos
    let cnt := readU16be inb pos
    let pos := pos + 2
    if ((endp : Int) - (pos : Int)) ≠ (cnt : Int) * 8 then
      (-1, { para with parse := { para.parse with polygon_area := pa } })
    else
      let pa := { pa with vertices := parsePolygonVertices inb endp endp pos [] }
      (0, { para with parse := { para.parse with polygon_area := pa } })

/-- Handler for 0x8605, delete polygon area. -/
def handler0x8605 (inb : List Nat) (para : ProtocolParameter) :
    Int × ProtocolParameter :=
  let msg_len := para.parse.msg_head.msgbody_attr.msglen
  let pos : Nat := if para.parse.msg_head.msgbody_attr.packet = 1 then 17 else 13
  let cnt := inb.getD pos 0
  if cnt * 4 + 1 ≠ msg_len then (-1, para)
  else
    (0, { para with parse := { para.parse with
      polygon_area_id :=
        (List.range cnt).map (fun i => readU32be inb (pos + 1 + i * 4)) } })

/-- Handler for 0x0801, multimedia data upload. -/
def handler0x0801 (inb : List Nat) (para : ProtocolParameter) :
    Int × ProtocolParameter :=
  let msg_len := para.parse.msg_head.msgbody_attr.msglen
  let pos : Nat := if para.parse.msg_head.msgbody_attr.packet = 1 then 17 else 13
  (0, { para with parse := { para.parse with
    multimedia_upload := { para.parse.multimedia_upload with
      media_id := readU32be inb pos
      media_type := inb.getD (pos + 4) 0
      media_format := inb.getD (pos + 5) 0
      media_event := inb.getD (pos + 6) 0
      channel_id := inb.getD (pos + 7) 0
      loaction_report_body := (inb.drop (pos + 8)).take 28
      media_data := (inb.drop (pos + 36)).take (msg_len - 36) } } })

/-- Handler for 0x8800, multimedia data upload response. -/
def handler0x8800 (inb : List Nat) (para : ProtocolParameter) :
    Int × ProtocolParameter :=
  let msg_len := para.parse.msg_head.msgbody_attr.msglen
  let pos : Nat := if para.parse.msg_head.msgbody_attr.packet = 1 then 17 else 13
  let mid := readU32be inb pos
  if msg_len > 4 then
    let cnt := inb.getD (pos + 4) 0
    (0, { para with parse := { para.parse with
      multimedia_upload_response := { para.parse.multimedia_upload_response with
        media_id := mid
        reload_packet_ids :=
          (List.range cnt).map (fun i => readU16be inb (pos + 5 + 2 * i)) } } })
  else
    (0, { para with parse := { para.parse with
      multimedia_upload_response := { para.parse.multimedia_upload_response with
        media_id := mid } } })

/-! ## The parser registry and `JT808FrameParse` -/

/-- The `ParseHandler` of parser.h: a message-body parsing function.  The C++
returns `int` and mutates `ProtocolParameter*`; here the updated record
is returned alongside. -/
abbrev ParseHandler : Type := List Nat → ProtocolParameter → Int × ProtocolParameter

/-- The `Parser` of parser.h: `std::map<uint16_t, ParseHandler>`, modelled as
an association list with distinct keys. -/
abbrev ParserMap : Type := List (Nat × ParseHandler)

/-- The `std::map::find` on the registry. -/
def parserMapFind (m : ParserMap) (id : Nat) : Option ParseHandler :=
  (List.find? (fun kv => kv.1 == id) m).map (fun kv => kv.2)

/-- The registry built by `JT808FrameParserInit` (parser.cc): the 22
built-in message IDs (the `SupportedCommands` constants of
protocol_parameter.h) mapped to their handlers, in registration order. -/
def JT808FrameParserInitMap : ParserMap :=
  [(0x0001, handler0x0001), (0x8001, handler0x8001), (0x0002, handler0x0002),
   (0x8003, handler0x8003), (0x0100, handler0x0100), (0x8100, handler0x8100),
   (0x0003, handler0x0003), (0x0102, handler0x0102), (0x8103, handler0x8103),
   (0x8104, handler0x8104), (0x8106, handler0x8106), (0x0104, handler0x0104),
   (0x8108, handler0x8108), (0x0108, handler0x0108), (0x0200, handler0x0200),
   (0x8201, handler0x8201), (0x0201, handler0x0201), (0x8202, handler0x8202),
   (0x8604, handler0x8604), (0x8605, handler0x8605), (0x0801, handler0x0801),
   (0x8800, handler0x8800)]

/-- The `enum class ParserError` (parser.h as shipped in the example bundle):
`JT808FrameParse` returns a `std::error_code` whose value is one of
these integers (or a handler's own return value).  There is no
`MissingFlags` member.  (`UnesapingError` is the source's spelling.) -/
def ParserErrorOk : Int := 0

/-- The `ParserError::MiscError = -1`. -/
def ParserErrorMiscError : Int := -1

/-- The `ParserError::ParametersNull = -2`. -/
def ParserErrorParametersNull : Int := -2

/-- The `ParserError::UnesapingError = -3`. -/
def ParserErrorUnesapingError : Int := -3

/-- The `ParserError::ChecksumError = -4`. -/
def ParserErrorChecksumError : Int := -4

/-- The `ParserError::HeaderParseError = -5`. -/
def ParserErrorHeaderParseError : Int := -5

/-- The `ParserError::UnregisteredMessageParser = -6`. -/
def ParserErrorUnregisteredMessageParser : Int := -6

/-- The checksum comparison of `JT808FrameParse`:
`BccCheckSum(&(out[1]), out.size() - 3) != *(out.end() - 2)`. -/
def checksumMismatch (out : List Nat) : Prop :=
  BccCheckSum ((out.drop 1).take (out.length - 3)) ≠ out.getD (out.length - 2) 0

instance (out : List Nat) : Decidable (checksumMismatch out) :=
  inferInstanceAs (Decidable (_ ≠ _))

/-- The `JT808FrameParse` of parser.cc.  The `ProtocolParameter*` argument is
an `Option`: `none` models a null pointer (the `ParametersNull` path),
and the updated record is returned alongside the `std::error_code`
value.  On a dispatched handler the returned value is the handler's own
`int`, exactly as `std::error_code(it->second(out, para),
parser_category())` wraps it. -/
def JT808FrameParse (parser : ParserMap) (inb : List Nat)
    (para : Option ProtocolParameter) : Int × Option ProtocolParameter :=
  match para with
  | none => (ParserErrorParametersNull, none)
  | some p =>
    match ReverseEscape inb with
    | none => (ParserErrorUnesapingError, some p)
    | some out =>
      if checksumMismatch out then (ParserErrorChecksumError, some p)
      else
        let hr := JT808FrameHeadParse out p.parse.msg_head
        let p := { p with parse := { p.parse with msg_head := hr.2 } }
        if hr.1 ≠ 0 then (ParserErrorHeaderParseError, some p)
        else
          let p := { p with msg_head := { p.msg_head with
            phone_num := p.parse.msg_head.phone_num } }
          match parserMapFind parser p.parse.msg_head.msg_id with
          | none => (ParserErrorUnregisteredMessageParser, some p)
          | some h =>
            let r := h out p
            (r.1, some r.2)

/-! ## Zero-initialised records, used by the concrete evaluations -/

/-- A zero-initialised `MsgHead`. -/
def mh0 : MsgHead := { msg_id := 0, msgbody_attr := ⟨0⟩, phone_num := []
                       msg_flow_num := 0, total_packet := 0, packet_seq := 0 }

/-- A zero-initialised `RegisterInfo`. -/
def ri0 : RegisterInfo := ⟨0, 0, [], [], [], 0, []⟩

/-- A zero-initialised `UpgradeInfo`. -/
def ui0 : UpgradeInfo := ⟨0, 0, [], [], 0, []⟩

/-- A zero-initialised `LocationBasicInformation`. -/
def li0 : LocationBasicInformation := ⟨0, 0, 0, 0, 0, 0, 0, []⟩

/-- A zero-initialised `PolygonArea`. -/
def pa0 : PolygonArea := ⟨0, ⟨0⟩, [], [], 0, 0, []⟩

/-- A zero-initialised `MultiMediaDataUpload`. -/
def mu0 : MultiMediaDataUpload := ⟨0, 0, 0, 0, 0, [], []⟩

/-- A zero-initialised `VersionInformation`. -/
def vi0 : VersionInformation := ⟨[], [], [], [], [], [], [], 0, [], 0, 0⟩

/-- A zero-initialised `DrivingLicenseData`. -/
def dl0 : DrivingLicenseData := ⟨⟨[], [], [], [], [], [], [], [], [], []⟩, 0, 0⟩

/-- A zero-initialised `CANBroadcastData`. -/
def cb0 : CANBroadcastData := ⟨0, [], ⟨0, []⟩⟩

/-- A zero-initialised `ParseView`. -/
def pv0 : ParseView := ⟨0, 0, 0, mh0, ri0, [], [], [], li0, [], ⟨0, 0⟩, pa0,
  [], ui0, ⟨0, []⟩, mu0, ⟨0, []⟩, [], vi0, dl0, cb0⟩

/-- A zero-initialised `ProtocolParameter`. -/
def pp0 : ProtocolParameter := ⟨0, 0, 0, mh0, ri0, [], [], [], li0, [], ⟨0, 0⟩,
  pa0, [], ui0, ⟨0, []⟩, mu0, ⟨0, []⟩, [], vi0, dl0, cb0, pv0⟩

/-! ## Effect envelopes: which fields a call may change -/

/-- The `q` agrees with `p` on every `ProtocolParameter` field outside the
`parse` sub-view (by structure eta, this is exactly the conjunction of
the 21 outer field equalities). -/
def sameOutside (p q : ProtocolParameter) : Prop :=
  q = { p with parse := q.parse }

/-- The `q` agrees with `p` on every field outside the `parse` sub-view
except possibly `msg_head.phone_num`. -/
def sameOutsideExceptPhone (p q : ProtocolParameter) : Prop :=
  q = { p with
        parse := q.parse
        msg_head := { p.msg_head with phone_num := q.msg_head.phone_num } }

instance (p q : ProtocolParameter) : Decidable (sameOutside p q) :=
  inferInstanceAs (Decidable (_ = _))

instance (p q : ProtocolParameter) : Decidable (sameOutsideExceptPhone p q) :=
  inferInstanceAs (Decidable (_ = _))

/-- A handler is tame when it returns status 0 or -1 and writes only the
`parse` sub-view — the shape of every built-in handler of parser.cc. -/
def handlerTame (h : ParseHandler) : Prop :=
  ∀ inb p, ((h inb p).1 = 0 ∨ (h inb p).1 = -1) ∧ sameOutside p (h inb p).2

lemma tame0x0001 : handlerTame handler0x0001 := by
  intro inb p
  simp only [handler0x0001]
  all_goals exact ⟨by simp, rfl⟩

lemma tame0x8001 : handlerTame handler0x8001 := by
  intro inb p
  simp only [handler0x8001]
  all_goals exact ⟨by simp, rfl⟩

lemma tame0x0002 : handlerTame handler0x0002 := by
  intro inb p
  simp only [handler0x0002]
  all_goals exact ⟨by simp, rfl⟩

lemma tame0x8003 : handlerTame handler0x8003 := by
  intro inb p
  simp only [handler0x8003]
  repeat' split
  all_goals exact ⟨by simp, rfl⟩

lemma tame0x0100 : handlerTame handler0x0100 := by
  intro inb p
  simp only [handler0x0100]
  repeat' split
  all_goals exact ⟨by simp, rfl⟩

lemma tame0x8100 : handlerTame handler0x8100 := by
  intro inb p
  simp only [handler0x8100]
  repeat' split
  all_goals exact ⟨by simp, rfl⟩

lemma tame0x0003 : handlerTame handler0x0003 := by
  intro inb p
  simp only [handler0x0003]
  all_goals exact ⟨by simp, rfl⟩

lemma tame0x0102 : handlerTame handler0x0102 := by
  intro inb p
  simp only [handler0x0102]
  all_goals exact ⟨by simp, rfl⟩

lemma tame0x8103 : handlerTame handler0x8103 := by
  intro inb p
  simp only [handler0x8103]
  repeat' split
  all_goals exact ⟨by simp, rfl⟩

lemma tame0x8104 : handlerTame handler0x8104 := by
  intro inb p
  simp only [handler0x8104]
  all_goals exact ⟨by simp, rfl⟩

lemma tame0x8106 : handlerTame handler0x8106 := by
  intro inb p
  simp only [handler0x8106]
  repeat' split
  all_goals exact ⟨by simp, rfl⟩

lemma tame0x0104 : handlerTame handler0x0104 := by
  intro inb p
  simp only [handler0x0104]
  repeat' split
  all_goals exact ⟨by simp, rfl⟩

lemma tame0x8108 : handlerTame handler0x8108 := by
  intro inb p
  simp only [handler0x8108]
  repeat' split
  all_goals exact ⟨by simp, rfl⟩

lemma tame0x0108 : handlerTame handler0x0108 := by
  intro inb p
  simp only [handler0x0108]
  all_goals exact ⟨by simp, rfl⟩

lemma tame0x0200 : handlerTame handler0x0200 := by
  intro inb p
  simp only [handler0x0200]
  repeat' split
  all_goals exact ⟨by simp, rfl⟩

lemma tame0x8201 : handlerTame handler0x8201 := by
  intro inb p
  simp only [handler0x8201]
  all_goals exact ⟨by simp, rfl⟩

lemma tame0x0201 : handlerTame handler0x0201 := by
  intro inb p
  simp only [handler0x0201]
  repeat' split
  all_goals exact ⟨by simp, rfl⟩

lemma tame0x8202 : handlerTame handler0x8202 := by
  intro inb p
  simp only [handler0x8202]
  repeat' split
  all_goals exact ⟨by simp, rfl⟩

lemma tame0x8604 : handlerTame handler0x8604 := by
  intro inb p
  simp only [handler0x8604]
  repeat' split
  all_goals exact ⟨by simp, rfl⟩

lemma tame0x8605 : handlerTame handler0x8605 := by
  intro inb p
  simp only [handler0x8605]
  repeat' split
  all_goals exact ⟨by simp, rfl⟩

lemma tame0x0801 : handlerTame handler0x0801 := by
  intro inb p
  simp only [handler0x0801]
  all_goals exact ⟨by simp, rfl⟩

lemma tame0x8800 : handlerTame handler0x8800 := by
  intro inb p
  simp only [handler0x8800]
  repeat' split
  all_goals exact ⟨by simp, rfl⟩

/-- Every handler reachable through `parserMapFind` on the built-in
registry is tame. -/
lemma tame_of_find (id : Nat) (h : ParseHandler)
    (hf : parserMapFind JT808FrameParserInitMap id = some h) : handlerTame h := by
  unfold parserMapFind at hf
  rw [Option.map_eq_some'] at hf
  obtain ⟨kv, hfind, rfl⟩ := hf
  have hkv := List.mem_of_find?_eq_some hfind
  simp only [JT808FrameParserInitMap, List.mem_cons, List.not_mem_nil, or_false] at hkv
  rcases hkv with rfl|rfl|rfl|rfl|rfl|rfl|rfl|rfl|rfl|rfl|rfl|
    rfl|rfl|rfl|rfl|rfl|rfl|rfl|rfl|rfl|rfl|rfl
  exacts [tame0x0001, tame0x8001, tame0x0002, tame0x8003, tame0x0100,
    tame0x8100, tame0x0003, tame0x0102, tame0x8103, tame0x8104, tame0x8106,
    tame0x0104, tame0x8108, tame0x0108, tame0x0200, tame0x8201, tame0x0201,
    tame0x8202, tame0x8604, tame0x8605, tame0x0801, tame0x8800]

/-- Chaining the pre-dispatch effect (parse view plus phone number) with a
tame handler's effect (parse view only). -/
lemma sameOutsideExceptPhone_trans (p q r : ProtocolParameter)
    (h2 : sameOutside q r) (h1 : sameOutsideExceptPhone p q) :
    sameOutsideExceptPhone p r := by
  unfold sameOutsideExceptPhone at h1 ⊢
  unfold sameOutside at h2
  rw [h2, h1]

/-- Every call to `JT808FrameParse` with the built-in registry and a
non-null parameter record yields a record that agrees with the input on
every field outside the `parse` sub-view, except possibly
`msg_head.phone_num`. -/
lemma parse_effect (inb : List Nat) (p : ProtocolParameter) :
    ∃ c p', JT808FrameParse JT808FrameParserInitMap inb (some p) = (c, some p') ∧
      sameOutsideExceptPhone p p' := by
  simp only [JT808FrameParse]
  split
  · exact ⟨_, _, rfl, rfl⟩
  · split
    · exact ⟨_, _, rfl, rfl⟩
    · split
      · exact ⟨_, _, rfl, rfl⟩
      · split
        · exact ⟨_, _, rfl, rfl⟩
        · next h hfind =>
          exact ⟨_, _, rfl, sameOutsideExceptPhone_trans _ _ _
            ((tame_of_find _ _ hfind _ _).2) rfl⟩

/-! ## Concrete frames and parameter records for the claim evaluations -/

/-- The `n` zero bytes. -/
def zeroBytes (n : Nat) : List Nat := List.replicate n 0

/-- A zero-initialised parameter record whose parsed message-body
attribute word is `v` — the state a handler sees after the header of a
frame with attribute word `v` was decoded. -/
def withBodyAttr (v : Nat) : ProtocolParameter :=
  { pp0 with parse := { pp0.parse with msg_head := { mh0 with msgbody_attr := ⟨v⟩ } } }

/-- A well-formed 15-byte frame (flags, checksum `0x97`, phone BCD
`013523339527`, flow 1) whose message ID `0x0000` has no registered
handler. -/
def frameA : List Nat := [126, 0, 0, 0, 0, 1, 53, 35, 51, 149, 39, 0, 1, 151, 126]

/-- The same frame with message ID `0x0002` (terminal heartbeat) and its
checksum `0x95`. -/
def frameHB : List Nat := [126, 0, 2, 0, 0, 1, 53, 35, 51, 149, 39, 0, 1, 149, 126]

/-- A fill-packet body: first packet flow number 1, count 1, one two-byte
packet-id field `01 02`, at the no-packet body offset 13. -/
def frameFill : List Nat := zeroBytes 13 ++ [0, 1, 1, 1, 2]

/-- A location-query-response frame interior: body `AB CD` flow bytes
followed by a 28-byte zero basic block (`msglen = 30`), then the
checksum byte and the trailing `0x7E` flag of the unescaped frame. -/
def frameLocResp : List Nat := zeroBytes 13 ++ [171, 205] ++ zeroBytes 28 ++ [0, 126]

/-- A set-polygon-area body (`msglen = 28`): area ID `01020304`,
attribute word `0x0001` (`by_time` set), the 6-byte start BCD
`20 07 18 12 00 00` and stop BCD `20 07 18 12 00 01`, vertex count 1 and
one 8-byte vertex. -/
def framePoly : List Nat := zeroBytes 13 ++ [1, 2, 3, 4, 0, 1] ++
  [32, 7, 24, 18, 0, 0] ++ [32, 7, 24, 18, 0, 1] ++ [0, 1] ++ [0, 0, 0, 1, 0, 0, 0, 2]

/-- A 17-byte unescaped frame with the `packet` attribute bit set
(`attr = 0x2000`, `msglen = 0`) but without the four segmentation bytes:
`size - 15 - msglen = 2`, not 4.  Bytes 13-14 are `00 01`. -/
def framePkt17 : List Nat := [126, 0, 0, 32, 0, 1, 53, 35, 51, 149, 39, 0, 1, 0, 1, 153, 126]

/-- A 19-byte unescaped frame with the `packet` bit set (`attr = 0x2000`,
`msglen = 0`) and the four segmentation bytes `00 02 00 03`
(`size - 15 - msglen = 4`). -/
def framePkt19 : List Nat := [126, 0, 0, 32, 0, 1, 53, 35, 51, 149, 39, 0, 1, 0, 2, 0, 3, 153, 126]

/-- C2: the Fill-Packet Request (0x8003) parser does NOT store the
big-endian 16-bit value of each two-byte packet-id field.  On the
well-formed body with one id field `01 02` (declared count 1,
`msglen = 5`), the handler succeeds and stores `1 + 2 = 3` — the plain
sum of the two bytes — where the big-endian value the claim (and the
spec's field table `packet_ids: count × u16`) requires is
`1 * 256 + 2 = 258`.  The spec itself flags this line of parser.cc as a
bug, so the claim is right and the code wrong. -/
theorem C2_packet_id_byte_sum :
    (handler0x8003 frameFill (withBodyAttr 5)).1 = 0 ∧
    (handler0x8003 frameFill (withBodyAttr 5)).2.parse.fill_packet.packet_id = [3] ∧
    frameFill.getD 16 0 = 1 ∧ frameFill.getD 17 0 = 2 ∧
    frameFill.getD 16 0 * 256 + frameFill.getD 17 0 = 258 ∧ (3 : Nat) ≠ 258 := by
  decide

/-- C3: the Location Query Response (0x0201) parser does NOT store the
big-endian 16-bit value of the first two body bytes.  On the body whose
first two bytes are `AB CD` (`msglen = 30`), it stores
`0xAB * 256 + 0xAB = 43947` — `in[pos]` twice — not
`0xAB * 256 + 0xCD = 43981`; the spec itself flags this line of
parser.cc as a bug.  (The handler then also returns -1 on this minimal
well-formed body because its extension loop reuses the 0x0200 bound
`end = msg_len + pos` after `pos` already advanced past the two flow
bytes, and so runs into the checksum/flag tail.) -/
theorem C3_flow_num_same_byte :
    (handler0x0201 frameLocResp (withBodyAttr 30)).2.parse.respone_flow_num = 43947 ∧
    (handler0x0201 frameLocResp (withBodyAttr 30)).1 = -1 ∧
    frameLocResp.getD 13 0 = 171 ∧ frameLocResp.getD 14 0 = 205 ∧
    frameLocResp.getD 13 0 * 256 + frameLocResp.getD 14 0 = 43981 ∧
    (43947 : Nat) ≠ 43981 := by
  decide

/-- C4: the Set Polygon Area (0x8604) parser does NOT decode the two
6-byte BCD time fields when the `by_time` bit is set: the source assigns
both from the empty iterator range `(in.begin() + pos, in.begin() + pos)`
before advancing `pos` by 6, so `start_time` and `stop_time` come out as
the empty string, not the 12-digit `YYMMDDhhmmss` strings.  On a
well-formed 28-byte body with `by_time` set the handler succeeds, leaves
both fields empty, while the zero-fill BCD decode of the actual 6 bytes
at the start-time offset is the 12-digit string `200718120000`. -/
theorem C4_polygon_times_empty :
    (handler0x8604 framePoly (withBodyAttr 28)).1 = 0 ∧
    (handler0x8604 framePoly (withBodyAttr 28)).2.parse.polygon_area.area_attribute.by_time = 1 ∧
    (handler0x8604 framePoly (withBodyAttr 28)).2.parse.polygon_area.start_time = [] ∧
    (handler0x8604 framePoly (withBodyAttr 28)).2.parse.polygon_area.stop_time = [] ∧
    BcdToStringFillZero ((framePoly.drop 19).take 6) = [2, 0, 0, 7, 1, 8, 1, 2, 0, 0, 0, 0] ∧
    BcdToStringFillZero ((framePoly.drop 25).take 6) = [2, 0, 0, 7, 1, 8, 1, 2, 0, 0, 0, 1] := by
  decide

/-- C6, counterexample: on an input whose first byte is not `0x7E`,
`JT808FrameParse` does not (and cannot) return a distinct `MissingFlags`
error kind — `enum class ParserError` has no such member — it returns
`UnesapingError` (-3), the unescape-failure code, because the flag check
lives inside the `ReverseEscape` step whose failure is mapped to that
single code. -/
theorem C6_counterexample :
    JT808FrameParse JT808FrameParserInitMap [0, 0] (some pp0) =
      (ParserErrorUnesapingError, some pp0) ∧
    ParserErrorUnesapingError = -3 := by
  constructor
  · rfl
  · rfl

/-- C6 as amended: for every nonempty input whose first or last byte is
not `0x7E`, `JT808FrameParse` rejects the frame with `UnesapingError`
(-3) — the library's unescape-failure code, there being no `MissingFlags`
kind — before dispatching any message-body handler, leaving the
parameter record unchanged. -/
theorem C6_flag_reject_unescape_code (parser : ParserMap) (inb : List Nat)
    (p : ProtocolParameter) (_hne : inb ≠ [])
    (hflag : inb.head? ≠ some 0x7E ∨ inb.getLast? ≠ some 0x7E) :
    JT808FrameParse parser inb (some p) = (ParserErrorUnesapingError, some p) := by
  have hre : ReverseEscape inb = none := by
    unfold ReverseEscape
    rw [if_neg]
    rintro ⟨-, h2, h3⟩
    rcases hflag with h | h
    · exact h h2
    · exact h h3
  simp only [JT808FrameParse, hre]

/-- Witness for `C6_flag_reject_unescape_code` at the concrete input
`[0x00, 0x05]`. -/
theorem C6_flag_reject_unescape_code_witness :
    JT808FrameParse JT808FrameParserInitMap [0, 5] (some pp0) =
      (ParserErrorUnesapingError, some pp0) :=
  C6_flag_reject_unescape_code JT808FrameParserInitMap [0, 5] pp0 (by decide)
    (by decide)

/-- C7, counterexample: on the 17-byte frame `framePkt17` the attribute
word has the `packet` bit set and bytes 13-14 hold `00 01`, yet the
header decoder succeeds and stores `total_packet = 0`, not the
big-endian value 1 of bytes 13-14, because the source populates the
segmentation fields only when additionally
`in.size() - 15 - msglen == 4`. -/
theorem C7_counterexample :
    (JT808FrameHeadParse framePkt17 mh0).1 = 0 ∧
    (JT808FrameHeadParse framePkt17 mh0).2.msgbody_attr.packet = 1 ∧
    framePkt17.getD 13 0 * 256 + framePkt17.getD 14 0 = 1 ∧
    (JT808FrameHeadParse framePkt17 mh0).2.total_packet = 0 ∧
    (JT808FrameHeadParse framePkt17 mh0).2.packet_seq = 0 := by
  decide

/-- C7 as amended: for every unescaped frame of at least 15 bytes on
which `JT808FrameHeadParse` succeeds, the decoder sets `total_packet`
and `packet_seq` to the big-endian values of bytes 13-14 and 15-16 when
the attribute word's `packet` bit is 1 AND the frame length satisfies
`length - 15 - msglen = 4`, and sets both fields to zero otherwise — in
particular whenever the `packet` bit is 0. -/
theorem C7_segmentation_fields (inb : List Nat) (mh : MsgHead) (c : Int)
    (mh' : MsgHead) (hlen : 15 ≤ inb.length)
    (hp : JT808FrameHeadParse inb mh = (c, mh')) (hok : c = 0) :
    (mh'.msgbody_attr.packet = 1 ∧ inb.length - 15 - mh'.msgbody_attr.msglen = 4 →
      mh'.total_packet = inb.getD 13 0 * 256 + inb.getD 14 0 ∧
      mh'.packet_seq = inb.getD 15 0 * 256 + inb.getD 16 0) ∧
    (¬ (mh'.msgbody_attr.packet = 1 ∧ inb.length - 15 - mh'.msgbody_attr.msglen = 4) →
      mh'.total_packet = 0 ∧ mh'.packet_seq = 0) := by
  subst hok
  unfold JT808FrameHeadParse at hp
  rw [if_neg (by omega)] at hp
  rcases hbcd : BcdToString ((inb.drop 5).take 6) with - | s
  · rw [hbcd] at hp; cases hp
  · rw [hbcd] at hp
    dsimp only at hp
    split at hp
    · next hcond =>
      injection hp with h1 h2
      subst h2
      constructor
      · intro _; exact ⟨rfl, rfl⟩
      · intro hnot; exact absurd hcond hnot
    · next hcond =>
      injection hp with h1 h2
      subst h2
      constructor
      · intro hc; exact absurd hc hcond
      · intro _; exact ⟨rfl, rfl⟩

/-- Witness for `C7_segmentation_fields` at the 19-byte segmented frame
`framePkt19`: the decoder stores `total_packet = 2` and
`packet_seq = 3` from bytes 13-16. -/
theorem C7_segmentation_fields_witness :
    (JT808FrameHeadParse framePkt19 mh0).2.total_packet =
        framePkt19.getD 13 0 * 256 + framePkt19.getD 14 0 ∧
    (JT808FrameHeadParse framePkt19 mh0).2.packet_seq =
        framePkt19.getD 15 0 * 256 + framePkt19.getD 16 0 :=
  (C7_segmentation_fields framePkt19 mh0 _ _ (by decide) rfl (by decide)).1
    (by decide)

/-- C1, counterexample: a call to `JT808FrameParse` that fails with
`UnregisteredMessageParser` (-6) on the valid frame `frameA` (whose
message ID `0x0000` has no handler) nevertheless overwrites the
send-view field `para->msg_head.phone_num` — a field outside the
`para->parse` sub-view — with the phone number decoded from the frame,
so not every field outside `parse` keeps its value on failure. -/
theorem C1_counterexample :
    (JT808FrameParse JT808FrameParserInitMap frameA (some pp0)).1 =
      ParserErrorUnregisteredMessageParser ∧
    (JT808FrameParse JT808FrameParserInitMap frameA (some pp0)).2.map
      (fun q => q.msg_head.phone_num) = some [1, 3, 5, 2, 3, 3, 3, 9, 5, 2, 7] ∧
    pp0.msg_head.phone_num = [] := by
  decide

/-- C1 as amended: for every call to `JT808FrameParse` with the built-in
registry that returns a failure, every field of the parameter record
outside the `parse` sub-view holds the value it held before the call,
except `msg_head.phone_num`, which the failing call may have overwritten
with the phone number decoded from the frame (it does so exactly when
unescaping, checksum and header decoding all succeeded). -/
theorem C1_outside_parse_except_phone (inb : List Nat) (p : ProtocolParameter)
    (_hfail : (JT808FrameParse JT808FrameParserInitMap inb (some p)).1 ≠ ParserErrorOk)
    (q : ProtocolParameter)
    (hq : (JT808FrameParse JT808FrameParserInitMap inb (some p)).2 = some q) :
    sameOutsideExceptPhone p q := by
  obtain ⟨c, p', heq, hsp⟩ := parse_effect inb p
  rw [heq] at hq
  exact Option.some.inj hq ▸ hsp

/-- Witness for `C1_outside_parse_except_phone` at the failing call on
`frameA` (unregistered message ID). -/
theorem C1_outside_parse_except_phone_witness :
    sameOutsideExceptPhone pp0
      ((JT808FrameParse JT808FrameParserInitMap frameA (some pp0)).2.getD pp0) :=
  C1_outside_parse_except_phone frameA pp0 (by decide) _ (by decide)

/-- C10: whenever a call to `JT808FrameParse` with the built-in registry
passes unescaping, checksum verification and header decoding, the
returned record's send-view `msg_head.phone_num` equals the phone number
decoded from the received frame — also when the call then fails with
`UnregisteredMessageParser` or a body handler's failure, and on
success. -/
theorem C10_phone_overwrite (inb : List Nat) (p : ProtocolParameter)
    (out : List Nat) (hre : ReverseEscape inb = some out)
    (hck : ¬ checksumMismatch out) (mh : MsgHead)
    (hhp : JT808FrameHeadParse out p.parse.msg_head = (0, mh))
    (q : ProtocolParameter)
    (hq : (JT808FrameParse JT808FrameParserInitMap inb (some p)).2 = some q) :
    q.msg_head.phone_num = mh.phone_num := by
  simp only [JT808FrameParse, hre, hhp] at hq
  rw [if_neg hck] at hq
  simp only [ne_eq, not_true_eq_false, if_false, reduceCtorEq, not_false_eq_true,
    if_true] at hq
  split at hq
  · exact (Option.some.inj hq) ▸ rfl
  · next h hfind =>
    obtain ⟨-, hso⟩ := tame_of_find _ _ hfind out
      { p with parse := { p.parse with msg_head := mh }
               msg_head := { p.msg_head with phone_num := mh.phone_num } }
    unfold sameOutside at hso
    have hq2 : (h out
        { p with parse := { p.parse with msg_head := mh }
                 msg_head := { p.msg_head with phone_num := mh.phone_num } }).2 = q :=
      Option.some.inj hq
    rw [← hq2, hso]

/-- Witness for `C10_phone_overwrite` at the failing call on `frameA`:
the returned record carries the decoded phone number. -/
theorem C10_phone_overwrite_witness :
    ((JT808FrameParse JT808FrameParserInitMap frameA (some pp0)).2.getD
        pp0).msg_head.phone_num =
      (JT808FrameHeadParse frameA pp0.parse.msg_head).2.phone_num :=
  C10_phone_overwrite frameA pp0 frameA (by decide) (by decide) _
    (by decide) _ (by decide)

/-- Reading at offset `length + k` past a prefix lands in the suffix. -/
lemma getD_append_at (pre l : List Nat) (k : Nat) :
    (pre ++ l).getD (pre.length + k) 0 = l.getD k 0 := by
  rw [List.getD_append_right _ _ _ _ (Nat.le_add_right _ _)]
  simp

/-- Reading exactly at the prefix length lands at the suffix head. -/
lemma getD_append_self (pre l : List Nat) :
    (pre ++ l).getD pre.length 0 = l.getD 0 0 := by
  have := getD_append_at pre l 0
  simpa using this

/-- C8: for every well-formed Terminal Register Response (0x8100) body
`b1 b2 r rest…` (flow number bytes `b1 b2`, result byte `r`, remainder
`rest`, with `msglen = 3 + rest.length`) placed at the no-packet body
offset 13, the handler succeeds, stores the big-endian flow number
`b1 * 256 + b2` and the result byte `r`, and assigns the authentication
code from the remaining `msglen - 3` body bytes if and only if `r = 0`
(otherwise the field keeps its previous value). -/
theorem C8_register_response_fields (pre : List Nat) (hpre : pre.length = 13)
    (b1 b2 r : Nat) (rest : List Nat) (p : ProtocolParameter)
    (hlen : p.parse.msg_head.msgbody_attr.msglen = 3 + rest.length)
    (q : ProtocolParameter)
    (hq : q = (handler0x8100 (pre ++ b1 :: b2 :: r :: rest) p).2) :
    (handler0x8100 (pre ++ b1 :: b2 :: r :: rest) p).1 = 0 ∧
    q.parse.respone_flow_num = b1 * 256 + b2 ∧
    q.parse.respone_result = r ∧
    (r = 0 → q.parse.authentication_code = rest) ∧
    (r ≠ 0 → q.parse.authentication_code = p.parse.authentication_code) := by
  have g13 : (pre ++ b1 :: b2 :: r :: rest).getD 13 0 = b1 := by
    rw [← hpre, getD_append_self]; rfl
  have g14 : (pre ++ b1 :: b2 :: r :: rest).getD 14 0 = b2 := by
    have h14 : (14 : Nat) = pre.length + 1 := by omega
    rw [h14, getD_append_at]; rfl
  have g15 : (pre ++ b1 :: b2 :: r :: rest).getD 15 0 = r := by
    have h15 : (15 : Nat) = pre.length + 2 := by omega
    rw [h15, getD_append_at]; rfl
  have gdrop : (pre ++ b1 :: b2 :: r :: rest).drop 16 = rest := by
    have h16 : (16 : Nat) = pre.length + 3 := by omega
    rw [h16, List.drop_append]; rfl
  have gauth : ((pre ++ b1 :: b2 :: r :: rest).drop (13 + 3)).take
      (p.parse.msg_head.msgbody_attr.msglen - 3) = rest := by
    rw [show (13 + 3 : Nat) = 16 from rfl, gdrop, hlen,
      Nat.add_sub_cancel_left, List.take_length]
  subst hq
  simp only [handler0x8100]
  rw [g13, g14, g15, gauth]
  by_cases hr : r = 0
  · rw [if_pos hr]
    exact ⟨rfl, rfl, rfl, fun _ => rfl, fun hne => absurd hr hne⟩
  · rw [if_neg hr]
    exact ⟨rfl, rfl, rfl, fun h0 => absurd h0 hr, fun _ => rfl⟩

/-- Witness for `C8_register_response_fields`: flow bytes `00 07`,
result 0, three-byte authentication code `09 09 09`. -/
theorem C8_register_response_fields_witness :
    (handler0x8100 (zeroBytes 13 ++ 0 :: 7 :: 0 :: [9, 9, 9]) (withBodyAttr 6)).1 = 0 ∧
    ((handler0x8100 (zeroBytes 13 ++ 0 :: 7 :: 0 :: [9, 9, 9])
        (withBodyAttr 6)).2).parse.respone_flow_num = 0 * 256 + 7 ∧
    ((handler0x8100 (zeroBytes 13 ++ 0 :: 7 :: 0 :: [9, 9, 9])
        (withBodyAttr 6)).2).parse.respone_result = 0 ∧
    ((0 : Nat) = 0 → ((handler0x8100 (zeroBytes 13 ++ 0 :: 7 :: 0 :: [9, 9, 9])
        (withBodyAttr 6)).2).parse.authentication_code = [9, 9, 9]) ∧
    ((0 : Nat) ≠ 0 → ((handler0x8100 (zeroBytes 13 ++ 0 :: 7 :: 0 :: [9, 9, 9])
        (withBodyAttr 6)).2).parse.authentication_code =
      (withBodyAttr 6).parse.authentication_code) :=
  C8_register_response_fields (zeroBytes 13) (by decide) 0 7 0 [9, 9, 9]
    (withBodyAttr 6) (by decide) _ rfl

/-- The wire encoding of one terminal-parameter item
`(param_id: u32 big-endian, value_len: u8, value: value_len bytes)`. -/
def encodeParamItem (it : Nat × List Nat) : List Nat :=
  it.1 / 16777216 % 256 :: it.1 / 65536 % 256 :: it.1 / 256 % 256 ::
    it.1 % 256 :: it.2.length :: it.2

/-- The wire encoding of a terminal-parameter item list. -/
def encodeParamItems (items : List (Nat × List Nat)) : List Nat :=
  items.flatMap encodeParamItem

/-- One unfolding step of the 0x8103/0x0104 item loop. -/
lemma parseParamItems_succ (inb : List Nat) (n pos : Nat)
    (acc : TerminalParameters) :
    parseParamItems inb (n + 1) pos acc =
      parseParamItems inb n (pos + 4 + 1 + inb.getD (pos + 4) 0)
        (mapInsert acc (readU32be inb pos)
          ((inb.drop (pos + 4 + 1)).take (inb.getD (pos + 4) 0))) := rfl

/-- The 0x8103/0x0104 item loop decodes an encoded item list placed
after an arbitrary prefix into the left fold of `std::map::insert` over
the items, provided each parameter ID fits in 32 bits. -/
lemma parseParamItems_spec (items : List (Nat × List Nat)) :
    ∀ (pre post : List Nat) (acc : TerminalParameters),
      (∀ it ∈ items, it.1 < 4294967296) →
      parseParamItems (pre ++ (encodeParamItems items ++ post)) items.length
          pre.length acc =
        items.foldl (fun m it => mapInsert m it.1 it.2) acc := by
  induction items with
  | nil => intro pre post acc _; rfl
  | cons it rest ih =>
    intro pre post acc hb
    have hid : it.1 < 4294967296 := (hb it (List.mem_cons_self it rest))
    have henc : encodeParamItems (it :: rest) ++ post =
        encodeParamItem it ++ (encodeParamItems rest ++ post) := by
      simp [encodeParamItems, List.append_assoc]
    rw [List.length_cons, henc, parseParamItems_succ]
    have g4 : (pre ++ (encodeParamItem it ++ (encodeParamItems rest ++ post))).getD
        (pre.length + 4) 0 = it.2.length := by
      rw [getD_append_at]; rfl
    have gid : readU32be (pre ++ (encodeParamItem it ++ (encodeParamItems rest ++ post)))
        pre.length = it.1 := by
      unfold readU32be
      rw [getD_append_self,
        show pre.length + 1 = pre.length + 1 from rfl, getD_append_at,
        show pre.length + 2 = pre.length + 2 from rfl, getD_append_at,
        show pre.length + 3 = pre.length + 3 from rfl, getD_append_at]
      show it.1 / 16777216 % 256 * 16777216 + it.1 / 65536 % 256 * 65536 +
        it.1 / 256 % 256 * 256 + it.1 % 256 = it.1
      omega
    have gval : ((pre ++ (encodeParamItem it ++ (encodeParamItems rest ++ post))).drop
        (pre.length + 4 + 1)).take
          ((pre ++ (encodeParamItem it ++ (encodeParamItems rest ++ post))).getD
            (pre.length + 4) 0) = it.2 := by
      rw [g4, show pre.length + 4 + 1 = pre.length + 5 from rfl, List.drop_append]
      show ((encodeParamItem it).drop 5 ++ (encodeParamItems rest ++ post)).take
          it.2.length = it.2
      rw [show (encodeParamItem it).drop 5 = it.2 from rfl, List.take_left]
    rw [gid, gval, g4]
    have hassoc : pre ++ (encodeParamItem it ++ (encodeParamItems rest ++ post)) =
        (pre ++ encodeParamItem it) ++ (encodeParamItems rest ++ post) :=
      (List.append_assoc pre (encodeParamItem it) (encodeParamItems rest ++ post)).symm
    have hplen : pre.length + 4 + 1 + it.2.length =
        (pre ++ encodeParamItem it).length := by
      simp [encodeParamItem]
      omega
    rw [hassoc, hplen, ih (pre ++ encodeParamItem it) post
      (mapInsert acc it.1 it.2) (fun x hx => hb x (List.mem_cons_of_mem it hx))]
    rfl

/-- C9: for every well-formed Set Terminal Parameters (0x8103) body that
declares count `n = items.length` followed by the encodings of `items`
(each parameter ID below 2^32), the handler succeeds, clears the parsed
parameter map and leaves it holding exactly the decoded mapping — the
left fold of `std::map::insert` of the decoded `(id, value)` pairs into
the empty map. -/
theorem C9_terminal_parameters_map (pre post : List Nat) (hpre : pre.length = 13)
    (items : List (Nat × List Nat)) (p : ProtocolParameter)
    (hb : ∀ it ∈ items, it.1 < 4294967296)
    (hpkt : p.parse.msg_head.msgbody_attr.packet = 0)
    (hlen : 1 ≤ p.parse.msg_head.msgbody_attr.msglen) :
    handler0x8103 (pre ++ items.length :: (encodeParamItems items ++ post)) p =
      (0, { p with parse := { p.parse with terminal_parameters :=
        (items.foldl (fun m it => mapInsert m it.1 it.2) []) } }) := by
  have hcnt : (pre ++ items.length :: (encodeParamItems items ++ post)).getD 13 0 =
      items.length := by
    rw [← hpre, getD_append_self]; rfl
  have hsplit : pre ++ items.length :: (encodeParamItems items ++ post) =
      (pre ++ [items.length]) ++ (encodeParamItems items ++ post) := by
    simp
  have hlen14 : (14 : Nat) = (pre ++ [items.length]).length := by simp [hpre]
  simp only [handler0x8103]
  rw [if_neg (by omega), if_neg (by simp [hpkt])]
  rw [hcnt, show (13 + 1 : Nat) = 14 from rfl, hlen14, hsplit,
    parseParamItems_spec items (pre ++ [items.length]) post [] hb]

/-- Witness for `C9_terminal_parameters_map` at the claim's concrete
body `01 00 00 F0 20 0D 31 39 32 2E 31 36 38 2E 33 2E 31 31 31`: one
parameter, ID `0xF020 = 61472`, value the 13 ASCII bytes of
`192.168.3.111`; parsing yields exactly that single-entry mapping. -/
theorem C9_terminal_parameters_map_witness :
    handler0x8103 (zeroBytes 13 ++ (1 : Nat) ::
        (encodeParamItems [(61472, [49, 57, 50, 46, 49, 54, 56, 46, 51, 46, 49, 49, 49])] ++ []))
      (withBodyAttr 19) =
      (0, { withBodyAttr 19 with parse := { (withBodyAttr 19).parse with
        terminal_parameters :=
          [(61472, [49, 57, 50, 46, 49, 54, 56, 46, 51, 46, 49, 49, 49])] } }) :=
  C9_terminal_parameters_map (zeroBytes 13) []
    (by decide) [(61472, [49, 57, 50, 46, 49, 54, 56, 46, 51, 46, 49, 49, 49])]
    (withBodyAttr 19) (by decide) (by decide) (by decide)

/-- The parameter-record state `JT808FrameParse` has built when it
reaches the dispatch step: the parsed header stored in the `parse` view
and the decoded phone number copied into the send-view `msg_head`. -/
def postHeadState (p : ProtocolParameter) (out : List Nat) : ProtocolParameter :=
  { p with
    parse := { p.parse with msg_head := (JT808FrameHeadParse out p.parse.msg_head).2 }
    msg_head := { p.msg_head with
      phone_num := (JT808FrameHeadParse out p.parse.msg_head).2.phone_num } }

/-- C5: the error-code chain of `JT808FrameParse` with the built-in
registry.  The call returns `ParametersNull` (-2) iff the output record
pointer is null; otherwise `UnesapingError` (-3) iff reverse escaping
fails; otherwise `ChecksumError` (-4) iff the recomputed XOR disagrees
with the trailing checksum byte; otherwise `HeaderParseError` (-5) iff
header decoding fails; otherwise `UnregisteredMessageParser` (-6) iff no
handler is registered for the decoded message ID; and otherwise it
returns `Ok` (0) exactly when the dispatched handler succeeds. -/
theorem C5_error_code_chain (inb : List Nat) (para : Option ProtocolParameter)
    (c : Int) (q : Option ProtocolParameter)
    (hr : JT808FrameParse JT808FrameParserInitMap inb para = (c, q)) :
    (c = ParserErrorParametersNull ↔ para = none) ∧
    (∀ p, para = some p →
      ((c = ParserErrorUnesapingError ↔ ReverseEscape inb = none) ∧
       ∀ out, ReverseEscape inb = some out →
         ((c = ParserErrorChecksumError ↔ checksumMismatch out) ∧
          (¬ checksumMismatch out →
            ((c = ParserErrorHeaderParseError ↔
                (JT808FrameHeadParse out p.parse.msg_head).1 ≠ 0) ∧
             ((JT808FrameHeadParse out p.parse.msg_head).1 = 0 →
               ((c = ParserErrorUnregisteredMessageParser ↔
                   parserMapFind JT808FrameParserInitMap
                     (JT808FrameHeadParse out p.parse.msg_head).2.msg_id = none) ∧
                ∀ h, parserMapFind JT808FrameParserInitMap
                       (JT808FrameHeadParse out p.parse.msg_head).2.msg_id = some h →
                  (c = ParserErrorOk ↔
                    (h out (postHeadState p out)).1 = 0)))))))) := by
  cases para with
  | none =>
    injection hr with h1 h2
    subst h1
    refine ⟨iff_of_true rfl rfl, ?_⟩
    intro p hp
    cases hp
  | some p =>
    simp only [JT808FrameParse] at hr
    split at hr
    · next hre =>
      injection hr with h1 h2
      subst h1
      refine ⟨iff_of_false (by decide) (by simp), ?_⟩
      intro p' hp'
      obtain rfl : p' = p := (Option.some.inj hp').symm
      refine ⟨iff_of_true rfl hre, ?_⟩
      intro out hout
      exact absurd (hre.symm.trans hout) (by simp)
    · next out hre =>
      split at hr
      · next hck =>
        injection hr with h1 h2
        subst h1
        refine ⟨iff_of_false (by decide) (by simp), ?_⟩
        intro p' hp'
        obtain rfl : p' = p := (Option.some.inj hp').symm
        refine ⟨iff_of_false (by decide)
          (fun hx => Option.noConfusion (hre.symm.trans hx)), ?_⟩
        intro out' hout'
        obtain rfl : out' = out := (Option.some.inj (hre.symm.trans hout')).symm
        refine ⟨iff_of_true rfl hck, ?_⟩
        intro hnck
        exact absurd hck hnck
      · next hck =>
        split at hr
        · next hhp =>
          injection hr with h1 h2
          subst h1
          refine ⟨iff_of_false (by decide) (by simp), ?_⟩
          intro p' hp'
          obtain rfl : p' = p := (Option.some.inj hp').symm
          refine ⟨iff_of_false (by decide)
            (fun hx => Option.noConfusion (hre.symm.trans hx)), ?_⟩
          intro out' hout'
          obtain rfl : out' = out := (Option.some.inj (hre.symm.trans hout')).symm
          refine ⟨iff_of_false (by decide) hck, ?_⟩
          intro hnck
          refine ⟨iff_of_true rfl hhp, ?_⟩
          intro h0
          exact absurd h0 hhp
        · next hhp =>
          have h0 : (JT808FrameHeadParse out p.parse.msg_head).1 = 0 :=
            not_not.mp hhp
          split at hr
          · next hfind =>
            injection hr with h1 h2
            subst h1
            refine ⟨iff_of_false (by decide) (by simp), ?_⟩
            intro p' hp'
            obtain rfl : p' = p := (Option.some.inj hp').symm
            refine ⟨iff_of_false (by decide)
              (fun hx => Option.noConfusion (hre.symm.trans hx)), ?_⟩
            intro out' hout'
            obtain rfl : out' = out := (Option.some.inj (hre.symm.trans hout')).symm
            refine ⟨iff_of_false (by decide) hck, ?_⟩
            intro hnck
            refine ⟨iff_of_false (by decide) (fun hx => hx h0), ?_⟩
            intro h0'
            exact ⟨iff_of_true rfl hfind, fun h hfh =>
              absurd (hfind.symm.trans hfh) (by simp)⟩
          · next h hfind =>
            injection hr with h1 h2
            subst h1
            obtain ⟨hcode, -⟩ := tame_of_find _ _ hfind out _
            have hne : ∀ v : Int, v ≠ 0 → v ≠ -1 →
                ¬ ((h out (postHeadState p out)).1 = v) := by
              rcases hcode with hc | hc <;>
                { intro v hv0 hv1 hx
                  rw [show (h out (postHeadState p out)).1 =
                    (h out (postHeadState p out)).1 from rfl] at hx
                  exact absurd (hc.symm.trans hx) (by omega) }
            refine ⟨iff_of_false (hne _ (by decide) (by decide)) (by simp), ?_⟩
            intro p' hp'
            obtain rfl : p' = p := (Option.some.inj hp').symm
            refine ⟨iff_of_false (hne _ (by decide) (by decide))
              (fun hx => Option.noConfusion (hre.symm.trans hx)), ?_⟩
            intro out' hout'
            obtain rfl : out' = out := (Option.some.inj (hre.symm.trans hout')).symm
            refine ⟨iff_of_false (hne _ (by decide) (by decide)) hck, ?_⟩
            intro hnck
            refine ⟨iff_of_false (hne _ (by decide) (by decide)) (fun hx => hx h0), ?_⟩
            intro h0'
            refine ⟨iff_of_false (hne _ (by decide) (by decide))
              (fun hx => Option.noConfusion (hfind.symm.trans hx)), ?_⟩
            intro h' hfh
            obtain rfl : h' = h := (Option.some.inj (hfind.symm.trans hfh)).symm
            exact Iff.rfl

/-- Witness for `C5_error_code_chain` at the heartbeat frame `frameHB`:
all stages pass, the 0x0002 handler succeeds, and the call returns
`Ok` (0). -/
theorem C5_error_code_chain_witness :
    (JT808FrameParse JT808FrameParserInitMap frameHB (some pp0)).1 = ParserErrorOk :=
  (((((C5_error_code_chain frameHB (some pp0) _ _ rfl).2 pp0 rfl).2 frameHB
    (by decide)).2 (by decide)).2 (by decide)).2 handler0x0002 rfl |>.mpr rfl
